import Mathlib

/-!
Shallow embedding of the cost-aware task orchestration core of the
gemini-cli-swarm repository: the complexity analyzer, cost optimizer and
backend selector (src/cost_optimizer.rs), the performance monitor
(src/performance.rs) and the swarm orchestrator (src/swarm/mod.rs).

Modelling conventions:
 - Rust f64 values are modelled as rationals (ℚ); all numeric literals in
   the source are exactly representable and every comparison the claims
   depend on is exact.
 - Rust SystemTime / Instant values are modelled as natural-number
   timestamps in milliseconds, passed explicitly to the operations that
   read the clock.
 - Rust HashMap lookups are modelled as functions into Option.
 - Fallible operations returning Result are modelled with Except.
-/

set_option linter.unusedVariables false
set_option linter.unreachableTactic false
set_option linter.unusedTactic false
set_option maxRecDepth 100000

-- ============================================================
-- String helpers shared by the analyzer (Rust str operations)
-- ============================================================

/-- Lower-casing of a string into a list of characters, modelling Rust
str::to_lowercase (faithful on the ASCII text the analyzer keyword lists
consist of). -/
def toLowerChars (s : String) : List Char := s.toList.map Char.toLower

/-- Substring containment, modelling Rust str::contains on string slices. -/
def containsSub (haystack : List Char) (needle : String) : Bool :=
  decide (List.IsInfix needle.toList haystack)

/-- Helper for wordCount: walks the characters keeping a flag that says
whether the previous character belonged to a word. -/
def wordCountAux : List Char → Bool → Nat
  | [], _ => 0
  | c :: rest, inWord =>
    if c.isWhitespace then wordCountAux rest false
    else (if inWord then 0 else 1) + wordCountAux rest true

/-- Number of whitespace-separated words of a string, modelling Rust
str::split_whitespace().count(). -/
def wordCount (s : String) : Nat := wordCountAux s.toList false

-- ============================================================
-- cost_optimizer.rs : data model
-- ============================================================

/-- Rust enum ModelChoice (src/cost_optimizer.rs). -/
inductive ModelChoice
  | Gemini2Pro
  | Gemini25Pro
  | Gemini25Flash
  | Claude35Sonnet
  | Claude37Sonnet
  | AutoSelect
deriving DecidableEq, Repr

/-- Rust struct TaskComplexity (src/cost_optimizer.rs). -/
structure TaskComplexity where
  reasoning_required : ℚ
  code_complexity : ℚ
  context_length : ℚ
  thinking_needed : Bool
  multimodal : Bool
deriving DecidableEq, Repr

/-- Rust enum PriorityLevel (src/cost_optimizer.rs). -/
inductive PriorityLevel
  | Low
  | Balanced
  | High
  | Critical
deriving DecidableEq, Repr

/-- Rust struct CostConstraints (src/cost_optimizer.rs). -/
structure CostConstraints where
  max_cost_per_task : Option ℚ
  monthly_budget : Option ℚ
  current_month_spent : ℚ
  priority_level : PriorityLevel
deriving DecidableEq, Repr

/-- Rust enum TaskType of src/cost_optimizer.rs (the swarm module has a
distinct enum of the same name, embedded below as SwarmTaskType). -/
inductive TaskType
  | CodeGeneration
  | SimpleQuery
  | ComplexReasoning
  | DataAnalysis
  | CreativeWriting
  | Mathematical
  | Multimodal
deriving DecidableEq, Repr

/-- Rust struct ModelCapabilities (src/cost_optimizer.rs). -/
structure ModelCapabilities where
  cost_per_million_input : ℚ
  cost_per_million_output : ℚ
  performance_score : ℚ
  thinking_support : Bool
  max_context_tokens : ℕ
  specializations : List TaskType
deriving DecidableEq, Repr

/-- Rust struct UsageRecord (src/cost_optimizer.rs); the SystemTime
timestamp is a natural number. -/
structure UsageRecord where
  timestamp : ℕ
  model_used : ModelChoice
  task_complexity : TaskComplexity
  actual_cost : ℚ
  success : Bool
  user_satisfaction : Option ℚ
deriving DecidableEq, Repr

/-- Rust struct CostOptimizer (src/cost_optimizer.rs); the HashMap of
capabilities is modelled as a function into Option. -/
structure CostOptimizer where
  model_capabilities : ModelChoice → Option ModelCapabilities
  usage_history : List UsageRecord
  current_constraints : CostConstraints

/-- Rust struct CostEstimate (src/lib.rs). -/
structure CostEstimate where
  input_tokens : ℕ
  output_tokens : ℕ
  estimated_cost_usd : ℚ
  model_used : String
deriving DecidableEq, Repr

/-- Rust enum FlowError (src/lib.rs). -/
inductive FlowError
  | ApiError (msg : String)
  | CompilationError (msg : String)
  | TimeoutError
  | InvalidPrompt (msg : String)
  | NetworkError (msg : String)
  | MaxAttemptsReached (attempts : ℕ)
  | CostLimitExceeded (limit : ℚ)
  | ThinkingModeNotSupported
  | AdapterNotFound (name : String)
  | InvalidResponse (msg : String)
deriving DecidableEq, Repr

-- ============================================================
-- cost_optimizer.rs : static capability table (impl Default)
-- ============================================================

/-- Capability table built by impl Default for CostOptimizer
(src/cost_optimizer.rs lines 92-147): exactly four models are inserted
into the HashMap; Gemini25Flash and AutoSelect have no entry. -/
def defaultModelCapabilities : ModelChoice → Option ModelCapabilities
  | .Gemini2Pro => some
      { cost_per_million_input := 1/10
        cost_per_million_output := 4/10
        performance_score := 75/100
        thinking_support := false
        max_context_tokens := 2000000
        specializations := [.SimpleQuery, .CodeGeneration] }
  | .Gemini25Pro => some
      { cost_per_million_input := 125/100
        cost_per_million_output := 10
        performance_score := 90/100
        thinking_support := true
        max_context_tokens := 1000000
        specializations := [.ComplexReasoning, .Mathematical, .CodeGeneration] }
  | .Claude35Sonnet => some
      { cost_per_million_input := 3
        cost_per_million_output := 15
        performance_score := 88/100
        thinking_support := false
        max_context_tokens := 200000
        specializations := [.CodeGeneration, .DataAnalysis] }
  | .Claude37Sonnet => some
      { cost_per_million_input := 3
        cost_per_million_output := 15
        performance_score := 95/100
        thinking_support := true
        max_context_tokens := 200000
        specializations := [.ComplexReasoning, .CodeGeneration, .Mathematical] }
  | _ => none

/-- Default constraints from impl Default for CostOptimizer. -/
def defaultCostConstraints : CostConstraints :=
  { max_cost_per_task := none
    monthly_budget := none
    current_month_spent := 0
    priority_level := .Balanced }

/-- Rust impl Default for CostOptimizer. -/
def CostOptimizer.default : CostOptimizer :=
  { model_capabilities := defaultModelCapabilities
    usage_history := []
    current_constraints := defaultCostConstraints }

/-- Rust CostOptimizer::new: default state with the given constraints. -/
def CostOptimizer.new (constraints : CostConstraints) : CostOptimizer :=
  { CostOptimizer.default with current_constraints := constraints }

-- ============================================================
-- cost_optimizer.rs : operations
-- ============================================================

/-- Rust CostOptimizer::detect_task_type: keyword dispatch on the
lower-cased description, first matching branch wins. -/
def detect_task_type (description : String) : TaskType :=
  let dl := toLowerChars description
  if containsSub dl "code" || containsSub dl "function" ||
     containsSub dl "class" || containsSub dl "programming" then
    .CodeGeneration
  else if containsSub dl "analyze" || containsSub dl "data" ||
          containsSub dl "statistics" then
    .DataAnalysis
  else if containsSub dl "math" || containsSub dl "calculate" ||
          containsSub dl "equation" then
    .Mathematical
  else if containsSub dl "think" || containsSub dl "reason" ||
          containsSub dl "complex" then
    .ComplexReasoning
  else if containsSub dl "image" || containsSub dl "video" ||
          containsSub dl "audio" then
    .Multimodal
  else if containsSub dl "write" || containsSub dl "story" ||
          containsSub dl "creative" then
    .CreativeWriting
  else
    .SimpleQuery

/-- Rust CostOptimizer::select_optimal_model: decision table keyed on the
priority level and the mean complexity score; the match arms are
translated in source order as a nested conditional. -/
def select_optimal_model (o : CostOptimizer) (tc : TaskComplexity)
    (task_description : String) : ModelChoice :=
  let task_type := detect_task_type task_description
  let complexity_score :=
    (tc.reasoning_required + tc.code_complexity + tc.context_length) / 3
  if o.current_constraints.priority_level = .Critical then
    if tc.thinking_needed then .Claude37Sonnet else .Claude35Sonnet
  else if o.current_constraints.priority_level = .Low ∧ complexity_score < 3/10 then
    .Gemini2Pro
  else if tc.thinking_needed then
    if complexity_score > 7/10 then .Claude37Sonnet else .Gemini25Pro
  else if task_type = .CodeGeneration ∧ complexity_score > 6/10 then
    .Claude35Sonnet
  else if o.current_constraints.priority_level = .Balanced then
    if complexity_score > 7/10 then .Gemini25Pro
    else if complexity_score > 4/10 then .Gemini25Flash
    else .Gemini2Pro
  else
    .Gemini25Pro

/-- Debug name of a model, modelling the Rust format of the Debug derive
used by estimate_cost. -/
def modelDebugName : ModelChoice → String
  | .Gemini2Pro => "Gemini2Pro"
  | .Gemini25Pro => "Gemini25Pro"
  | .Gemini25Flash => "Gemini25Flash"
  | .Claude35Sonnet => "Claude35Sonnet"
  | .Claude37Sonnet => "Claude37Sonnet"
  | .AutoSelect => "AutoSelect"

/-- Rust CostOptimizer::estimate_cost: price from the capability table,
zero estimate labelled Unknown when the model has no entry. -/
def estimate_cost (o : CostOptimizer) (model : ModelChoice)
    (input_tokens estimated_output_tokens : ℕ) : CostEstimate :=
  match o.model_capabilities model with
  | some capabilities =>
      let input_cost :=
        ((input_tokens : ℚ) / 1000000) * capabilities.cost_per_million_input
      let output_cost :=
        ((estimated_output_tokens : ℚ) / 1000000) * capabilities.cost_per_million_output
      { input_tokens := input_tokens
        output_tokens := estimated_output_tokens
        estimated_cost_usd := input_cost + output_cost
        model_used := modelDebugName model }
  | none =>
      { input_tokens := input_tokens
        output_tokens := estimated_output_tokens
        estimated_cost_usd := 0
        model_used := "Unknown" }

/-- Rust CostOptimizer::check_cost_constraints: per-task limit first, then
monthly budget, each rejecting with CostLimitExceeded carrying the bound
that was breached. -/
def check_cost_constraints (o : CostOptimizer) (estimated_cost : ℚ) :
    Except FlowError Unit :=
  match o.current_constraints.max_cost_per_task with
  | some max_cost =>
      if estimated_cost > max_cost then
        .error (.CostLimitExceeded max_cost)
      else
        match o.current_constraints.monthly_budget with
        | some monthly_budget =>
            if o.current_constraints.current_month_spent + estimated_cost > monthly_budget then
              .error (.CostLimitExceeded monthly_budget)
            else .ok ()
        | none => .ok ()
  | none =>
      match o.current_constraints.monthly_budget with
      | some monthly_budget =>
          if o.current_constraints.current_month_spent + estimated_cost > monthly_budget then
            .error (.CostLimitExceeded monthly_budget)
          else .ok ()
      | none => .ok ()

/-- Rust CostOptimizer::record_usage: push the record, then drop the
oldest entry whenever the history holds more than 1000 records. -/
def record_usage (o : CostOptimizer) (record : UsageRecord) : CostOptimizer :=
  let h := o.usage_history ++ [record]
  if h.length > 1000 then
    { o with usage_history := h.tail }
  else
    { o with usage_history := h }

/-- Rust CostOptimizer::update_constraints. -/
def update_constraints (o : CostOptimizer) (constraints : CostConstraints) :
    CostOptimizer :=
  { o with current_constraints := constraints }

-- ============================================================
-- cost_optimizer.rs : complexity analyzer
-- ============================================================

/-- Reasoning keyword list of analyze_task_complexity. -/
def reasoning_indicators : List String :=
  ["analyze", "explain", "reason", "think", "complex", "difficult", "solve"]

/-- Code keyword list of analyze_task_complexity. -/
def code_indicators : List String :=
  ["function", "class", "algorithm", "implement", "code", "programming", "api"]

/-- Thinking trigger phrases of analyze_task_complexity. -/
def thinking_indicators : List String :=
  ["step by step", "explain reasoning", "think through", "analyze carefully"]

/-- Multimodal keyword list of analyze_task_complexity. -/
def multimodal_indicators : List String :=
  ["image", "video", "audio", "visual", "picture"]

/-- Rust analyze_task_complexity (src/cost_optimizer.rs lines 372-408):
presence-based keyword scores normalised by list length, word-count based
context score capped at 1, thinking and multimodal flags from trigger
phrases. -/
def analyze_task_complexity (description : String) : TaskComplexity :=
  let dl := toLowerChars description
  let word_count := wordCount description
  let reasoning_score :=
    ((reasoning_indicators.filter (fun w => containsSub dl w)).length : ℚ) /
      (reasoning_indicators.length : ℚ)
  let code_score :=
    ((code_indicators.filter (fun w => containsSub dl w)).length : ℚ) /
      (code_indicators.length : ℚ)
  let context_score := min ((word_count : ℚ) / 100) 1
  let thinking_needed :=
    thinking_indicators.any (fun phrase => containsSub dl phrase) ||
      decide (reasoning_score > 6/10)
  let multimodal := multimodal_indicators.any (fun w => containsSub dl w)
  { reasoning_required := reasoning_score
    code_complexity := code_score
    context_length := context_score
    thinking_needed := thinking_needed
    multimodal := multimodal }

-- ============================================================
-- lib.rs : shared result structures
-- ============================================================

/-- Rust struct CodeGenerationMetrics (src/lib.rs). -/
structure CodeGenerationMetrics where
  cyclomatic_complexity : ℕ
  lines_of_code : ℕ
  token_count : ℕ
deriving DecidableEq, Repr

/-- Default CodeGenerationMetrics (all counters zero). -/
def CodeGenerationMetrics.default : CodeGenerationMetrics :=
  { cyclomatic_complexity := 0, lines_of_code := 0, token_count := 0 }

/-- Rust struct CodeGenerationResult (src/lib.rs). -/
structure CodeGenerationResult where
  code : String
  language : String
  confidence_score : ℚ
  attempts_made : ℕ
  execution_time_ms : ℕ
  verification_passed : Bool
  cost_estimate : Option CostEstimate
  model_used : Option String
  metrics : CodeGenerationMetrics
deriving DecidableEq, Repr

-- ============================================================
-- performance.rs : data model
-- ============================================================

/-- Rust struct PerformanceMetrics (src/performance.rs). -/
structure PerformanceMetrics where
  success_rate : ℚ
  avg_response_time_ms : ℚ
  speed_improvement_factor : ℚ
  cost_efficiency : ℚ
  user_satisfaction : ℚ
  throughput_tasks_per_hour : ℚ
  error_rate : ℚ
  avg_tokens_per_second : ℚ
deriving DecidableEq, Repr

/-- Rust struct TaskExecution (src/performance.rs); timestamps are
natural-number milliseconds, and the error field keeps the structured
FlowError whose Display string the source stores. -/
structure TaskExecution where
  id : String
  start_time : ℕ
  end_time : Option ℕ
  duration_ms : Option ℕ
  model_used : ModelChoice
  success : Bool
  error : Option FlowError
  input_tokens : ℕ
  output_tokens : ℕ
  cost : ℚ
  user_rating : Option ℚ
  complexity_score : ℚ
deriving DecidableEq, Repr

/-- Rust struct ModelPerformance (src/performance.rs). -/
structure ModelPerformance where
  model : ModelChoice
  total_tasks : ℕ
  successful_tasks : ℕ
  avg_response_time_ms : ℚ
  avg_cost_per_task : ℚ
  avg_user_rating : ℚ
  specialization_performance : List (String × ℚ)
deriving DecidableEq, Repr

/-- Rust enum MetricType (src/performance.rs). -/
inductive MetricType
  | ResponseTime
  | SuccessRate
  | TokensPerSecond
  | CostPerTask
deriving DecidableEq, Repr

/-- Rust struct RealTimeMetric (src/performance.rs); the Instant
timestamp is a natural number. -/
structure RealTimeMetric where
  timestamp : ℕ
  metric_type : MetricType
  value : ℚ
deriving DecidableEq, Repr

/-- Rust struct AlertThresholds (src/performance.rs). -/
structure AlertThresholds where
  min_success_rate : ℚ
  max_response_time_ms : ℚ
  max_cost_per_task : ℚ
  min_tokens_per_second : ℚ
deriving DecidableEq, Repr

/-- Rust impl Default for AlertThresholds. -/
def AlertThresholds.default : AlertThresholds :=
  { min_success_rate := 80/100
    max_response_time_ms := 30000
    max_cost_per_task := 50/100
    min_tokens_per_second := 50 }

/-- Rust struct PerformanceMonitor (src/performance.rs); the VecDeque
buffers are lists (front of the deque = head of the list) and the model
performance HashMap is a function into Option. -/
structure PerformanceMonitor where
  task_history : List TaskExecution
  model_performance : ModelChoice → Option ModelPerformance
  baseline_metrics : Option PerformanceMetrics
  real_time_buffer : List RealTimeMetric
  alert_thresholds : AlertThresholds
  session_start : ℕ

/-- Rust impl Default for PerformanceMonitor, started at clock value
session_start. -/
def PerformanceMonitor.default (session_start : ℕ) : PerformanceMonitor :=
  { task_history := []
    model_performance := fun _ => none
    baseline_metrics := none
    real_time_buffer := []
    alert_thresholds := AlertThresholds.default
    session_start := session_start }

/-- Rust PerformanceMonitor::new. -/
def PerformanceMonitor.new (thresholds : AlertThresholds) (session_start : ℕ) :
    PerformanceMonitor :=
  { PerformanceMonitor.default session_start with alert_thresholds := thresholds }

/-- Rust struct TaskTracker (src/performance.rs); the raw pointer back
into the monitor is not representable and is omitted — the tracker is
just the id plus the start instant. -/
structure TaskTracker where
  task_id : String
  start_instant : ℕ
deriving DecidableEq, Repr

-- ============================================================
-- performance.rs : operations
-- ============================================================

/-- Rust PerformanceMonitor::start_task (src/performance.rs lines
125-146): a TaskExecution value is constructed but never inserted into
task_history — the record is dropped and only the tracker handle is
returned, with the monitor state unchanged. -/
def start_task (m : PerformanceMonitor) (task_id : String)
    (model : ModelChoice) (complexity_score : ℚ) (now : ℕ) :
    PerformanceMonitor × TaskTracker :=
  let task : TaskExecution :=
    { id := task_id
      start_time := now
      end_time := none
      duration_ms := none
      model_used := model
      success := false
      error := none
      input_tokens := 0
      output_tokens := 0
      cost := 0
      user_rating := none
      complexity_score := complexity_score }
  (m, { task_id := task_id, start_instant := now })

/-- In-place update of the first list element satisfying the predicate,
returning the updated list together with a copy of the updated element;
models the iter_mut().find pattern of complete_task. -/
def updateFirst (p : TaskExecution → Bool) (f : TaskExecution → TaskExecution) :
    List TaskExecution → List TaskExecution × Option TaskExecution
  | [] => ([], none)
  | t :: rest =>
    if p t then
      (f t :: rest, some (f t))
    else
      let (rest', found) := updateFirst p f rest
      (t :: rest', found)

/-- Field updates applied by complete_task to the matched TaskExecution:
end time, duration (when the end time is not before the start time),
success / token / cost fields from the result, and the user rating. -/
def fillExecution (result : Except FlowError CodeGenerationResult)
    (user_rating : Option ℚ) (now : ℕ) (t : TaskExecution) : TaskExecution :=
  let t1 := { t with end_time := some now }
  let t2 :=
    if t1.start_time ≤ now then { t1 with duration_ms := some (now - t1.start_time) }
    else t1
  let t3 :=
    match result with
    | .ok code_result =>
        let ta := { t2 with
          success := code_result.verification_passed
          output_tokens := wordCount code_result.code }
        match code_result.cost_estimate with
        | some cost_estimate =>
            { ta with
              cost := cost_estimate.estimated_cost_usd
              input_tokens := cost_estimate.input_tokens
              output_tokens := cost_estimate.output_tokens }
        | none => ta
    | .error e => { t2 with success := false, error := some e }
  { t3 with user_rating := user_rating }

/-- Rust PerformanceMonitor::update_real_time_metrics: pushes up to four
RealTimeMetric entries for the completed task, then trims the buffer from
the front down to 100 entries. -/
def update_real_time_metrics (m : PerformanceMonitor) (task : TaskExecution)
    (now : ℕ) : PerformanceMonitor :=
  let b0 := m.real_time_buffer
  let b1 : List RealTimeMetric :=
    match task.duration_ms with
    | some duration =>
        b0 ++ [{ timestamp := now, metric_type := .ResponseTime, value := (duration : ℚ) }]
    | none => b0
  let b2 := b1 ++
    [{ timestamp := now, metric_type := .SuccessRate,
       value := if task.success then 1 else 0 }]
  let b3 := b2 ++
    [{ timestamp := now, metric_type := .CostPerTask, value := task.cost }]
  let b4 : List RealTimeMetric :=
    match task.duration_ms with
    | some duration =>
        let tokens_per_second :=
          ((task.input_tokens + task.output_tokens : ℕ) : ℚ) / ((duration : ℚ) / 1000)
        b3 ++ [{ timestamp := now, metric_type := .TokensPerSecond,
                 value := tokens_per_second }]
    | none => b3
  { m with real_time_buffer := b4.drop (b4.length - 100) }

/-- Rust PerformanceMonitor::update_model_performance: entry-or-insert on
the model map followed by the incremental mean updates of the source. -/
def update_model_performance (m : PerformanceMonitor) (task : TaskExecution) :
    PerformanceMonitor :=
  let p0 :=
    match m.model_performance task.model_used with
    | some p => p
    | none =>
        { model := task.model_used
          total_tasks := 0
          successful_tasks := 0
          avg_response_time_ms := 0
          avg_cost_per_task := 0
          avg_user_rating := 0
          specialization_performance := [] }
  let p1 := { p0 with
    total_tasks := p0.total_tasks + 1
    successful_tasks := p0.successful_tasks + (if task.success then 1 else 0) }
  let p2 :=
    match task.duration_ms with
    | some duration =>
        { p1 with avg_response_time_ms :=
            (p1.avg_response_time_ms * ((p1.total_tasks - 1 : ℕ) : ℚ) + (duration : ℚ)) /
              (p1.total_tasks : ℚ) }
    | none => p1
  let p3 := { p2 with avg_cost_per_task :=
    (p2.avg_cost_per_task * ((p2.total_tasks - 1 : ℕ) : ℚ) + task.cost) /
      (p2.total_tasks : ℚ) }
  let p4 :=
    match task.user_rating with
    | some rating =>
        let current_rating_count := p3.total_tasks
        { p3 with avg_user_rating :=
            (p3.avg_user_rating * (current_rating_count : ℚ) + rating) /
              ((current_rating_count + 1 : ℕ) : ℚ) }
    | none => p3
  { m with model_performance :=
      fun mc => if mc = task.model_used then some p4 else m.model_performance mc }

/-- Rust PerformanceMonitor::complete_task (src/performance.rs lines
149-195): update the first history entry with the matching id in place,
feed a copy of it to the real-time and per-model aggregates when one was
found, then evict the oldest history entry beyond capacity 1000. -/
def complete_task (m : PerformanceMonitor) (task_id : String)
    (result : Except FlowError CodeGenerationResult)
    (user_rating : Option ℚ) (now : ℕ) : PerformanceMonitor :=
  let (history1, task_data_for_updates) :=
    updateFirst (fun t => t.id == task_id) (fillExecution result user_rating now)
      m.task_history
  let m1 := { m with task_history := history1 }
  let m2 :=
    match task_data_for_updates with
    | some task_data =>
        update_model_performance (update_real_time_metrics m1 task_data now) task_data
    | none => m1
  if m2.task_history.length > 1000 then
    { m2 with task_history := m2.task_history.tail }
  else
    m2

/-- Empty-window PerformanceMetrics object returned by
get_current_metrics when no task ended within the trailing hour. -/
def emptyWindowMetrics : PerformanceMetrics :=
  { success_rate := 0
    avg_response_time_ms := 0
    speed_improvement_factor := 1
    cost_efficiency := 0
    user_satisfaction := 0
    throughput_tasks_per_hour := 0
    error_rate := 0
    avg_tokens_per_second := 0 }

/-- Rust PerformanceMonitor::get_current_metrics (src/performance.rs
lines 198-274): filter the executions that ended within the trailing
hour of the clock value now (milliseconds) and aggregate them; an empty
window yields emptyWindowMetrics. -/
def get_current_metrics (m : PerformanceMonitor) (now : ℕ) : PerformanceMetrics :=
  let recent_tasks := m.task_history.filter (fun task =>
    match task.end_time with
    | some end_time => decide (end_time ≤ now) && decide ((now - end_time) / 1000 < 3600)
    | none => false)
  if recent_tasks.isEmpty then emptyWindowMetrics
  else
    let total_tasks := recent_tasks.length
    let successful_tasks := (recent_tasks.filter (fun t => t.success)).length
    let success_rate := (successful_tasks : ℚ) / (total_tasks : ℚ)
    let avg_response_time :=
      ((recent_tasks.filterMap (fun t => t.duration_ms)).map (fun d => (d : ℚ))).sum /
        (total_tasks : ℚ)
    let total_cost := (recent_tasks.map (fun t => t.cost)).sum
    let cost_efficiency :=
      if successful_tasks > 0 then total_cost / (successful_tasks : ℚ) else 0
    let rated_count := (recent_tasks.filter (fun t => t.user_rating.isSome)).length
    let avg_user_satisfaction :=
      (recent_tasks.filterMap (fun t => t.user_rating)).sum / ((max rated_count 1 : ℕ) : ℚ)
    let session_duration_hours := ((now - m.session_start : ℕ) : ℚ) / 1000 / 3600
    let throughput := (total_tasks : ℚ) / (max session_duration_hours (1/3600))
    let error_rate := 1 - success_rate
    let avg_tokens_per_second :=
      (recent_tasks.filterMap (fun task =>
        task.duration_ms.map (fun duration =>
          ((task.input_tokens + task.output_tokens : ℕ) : ℚ) / ((duration : ℚ) / 1000)))).sum /
        (total_tasks : ℚ)
    let speed_improvement_factor :=
      match m.baseline_metrics with
      | some baseline => baseline.avg_response_time_ms / (max avg_response_time 1)
      | none => 1
    { success_rate := success_rate
      avg_response_time_ms := avg_response_time
      speed_improvement_factor := speed_improvement_factor
      cost_efficiency := cost_efficiency
      user_satisfaction := avg_user_satisfaction
      throughput_tasks_per_hour := throughput
      error_rate := error_rate
      avg_tokens_per_second := avg_tokens_per_second }

/-- One call against the PerformanceMonitor interface: either a
start_task or a complete_task invocation, with its clock value. -/
inductive MonitorOp
  | start (task_id : String) (model : ModelChoice) (complexity_score : ℚ) (now : ℕ)
  | complete (task_id : String) (result : Except FlowError CodeGenerationResult)
      (user_rating : Option ℚ) (now : ℕ)

/-- State reached by one MonitorOp. -/
def applyMonitorOp (m : PerformanceMonitor) : MonitorOp → PerformanceMonitor
  | .start task_id model complexity_score now =>
      (start_task m task_id model complexity_score now).1
  | .complete task_id result user_rating now =>
      complete_task m task_id result user_rating now

/-- State reached by a sequence of MonitorOps. -/
def runMonitorOps (m : PerformanceMonitor) (ops : List MonitorOp) :
    PerformanceMonitor :=
  ops.foldl applyMonitorOp m

-- ============================================================
-- swarm/mod.rs : data model
-- ============================================================

/-- Rust enum ThinkingMode (src/lib.rs). -/
inductive ThinkingMode
  | Standard
  | Extended (max_thinking_time_ms : ℕ)
  | StepByStep (show_intermediate : Bool)
deriving DecidableEq, Repr

/-- Rust struct ThinkingResult (src/lib.rs). -/
structure ThinkingResult where
  reasoning_trace : List String
  intermediate_conclusions : List String
  final_result : CodeGenerationResult
  confidence_evolution : List ℚ
  thinking_time_ms : ℕ
deriving DecidableEq, Repr

/-- Rust enum TaskType of src/swarm/mod.rs (distinct from the cost
optimizer enum of the same name). -/
inductive SwarmTaskType
  | CodeGeneration
  | DataAnalysis
  | Forecasting
  | TextProcessing
  | Classification
  | Regression
  | CustomTask (name : String)
deriving DecidableEq, Repr

/-- Rust enum TaskPriority (src/swarm/mod.rs). -/
inductive TaskPriority
  | Low
  | Medium
  | High
  | Critical
deriving DecidableEq, Repr

/-- Rust impl From of TaskPriority for PriorityLevel. -/
def TaskPriority.toPriorityLevel : TaskPriority → PriorityLevel
  | .Low => .Low
  | .Medium => .Balanced
  | .High => .High
  | .Critical => .Critical

/-- Rust struct TaskRequirements (src/swarm/mod.rs). -/
structure TaskRequirements where
  preferred_language : Option String
  max_execution_time_ms : Option ℕ
  quality_threshold : Option ℚ
  enable_verification : Bool
  use_neural_optimization : Bool
  max_cost_usd : Option ℚ
  enable_thinking : Bool
deriving DecidableEq, Repr

/-- Rust struct Task (src/swarm/mod.rs); named SwarmTask here because
Task is a Lean builtin; created_at is a natural-number timestamp. -/
structure SwarmTask where
  id : String
  task_type : SwarmTaskType
  description : String
  priority : TaskPriority
  requirements : TaskRequirements
  created_at : ℕ
  thinking_mode : Option ThinkingMode
deriving DecidableEq, Repr

/-- Rust struct SwarmConfig (src/swarm/mod.rs). -/
structure SwarmConfig where
  max_concurrent_tasks : ℕ
  default_adapter : String
  enable_neural_selection : Bool
  enable_adaptive_learning : Bool
  performance_monitoring : Bool
  cost_optimization : Bool
  cost_constraints : CostConstraints
  alert_thresholds : AlertThresholds
deriving DecidableEq, Repr

/-- Rust impl Default for SwarmConfig. -/
def SwarmConfig.default : SwarmConfig :=
  { max_concurrent_tasks := 4
    default_adapter := "gemini"
    enable_neural_selection := true
    enable_adaptive_learning := true
    performance_monitoring := true
    cost_optimization := true
    cost_constraints :=
      { max_cost_per_task := some (50/100)
        monthly_budget := some 100
        current_month_spent := 0
        priority_level := .Balanced }
    alert_thresholds := AlertThresholds.default }

/-- Rust struct TaskStep (src/swarm/mod.rs). -/
structure TaskStep where
  id : ℕ
  task : String
  tools : List String
  depends_on : List ℕ
  details : Option String
deriving DecidableEq, Repr

/-- Rust struct ExecutionPlan (src/swarm/mod.rs). -/
structure ExecutionPlan where
  original_objective : String
  steps : List TaskStep
deriving DecidableEq, Repr

/-- Rust struct SwarmExecutionResult (src/swarm/mod.rs); the error field
keeps the structured FlowError whose formatted message the source
stores. -/
structure SwarmExecutionResult where
  task_id : String
  success : Bool
  result : Option CodeGenerationResult
  thinking_result : Option ThinkingResult
  error : Option FlowError
  selected_adapter : String
  selected_model : ModelChoice
  execution_time_ms : ℕ
  performance_score : ℚ
  cost_actual : ℚ
  cost_saved : ℚ
  optimization_applied : Bool
deriving DecidableEq, Repr

/-- Rust struct ToolUsageStats (src/swarm/mod.rs). -/
structure ToolUsageStats where
  total_calls : ℕ
  successful_calls : ℕ
  total_time : ℕ
  last_used : ℕ
deriving DecidableEq, Repr

/-- Rust struct SwarmOrchestrator (src/swarm/mod.rs); the adapter map is
modelled by the list of registered adapter names (the trait objects are
external I/O wrappers). -/
structure SwarmOrchestrator where
  config : SwarmConfig
  adapters : List String
  active_tasks : List (String × SwarmTask)
  performance_history : List SwarmExecutionResult
  session_id : String
  cost_optimizer : CostOptimizer
  performance_monitor : PerformanceMonitor
  total_cost_saved : ℚ
  tool_usage_stats : List (String × ToolUsageStats)

/-- Rust SwarmOrchestrator::new, with the session id and session start
clock made explicit. -/
def SwarmOrchestrator.new (config : SwarmConfig) (session_id : String)
    (session_start : ℕ) : SwarmOrchestrator :=
  { config := config
    adapters := []
    active_tasks := []
    performance_history := []
    session_id := session_id
    cost_optimizer := CostOptimizer.new config.cost_constraints
    performance_monitor := PerformanceMonitor.new config.alert_thresholds session_start
    total_cost_saved := 0
    tool_usage_stats := [] }

-- ============================================================
-- swarm/mod.rs : operations
-- ============================================================

/-- Rust SwarmOrchestrator::create_execution_plan: fails with
AdapterNotFound when the default adapter is unregistered, otherwise makes
the external adapter call with the planning meta prompt and parses the
response into an ExecutionPlan. The adapter call and the regex plus
serde-based extraction of the plan from the response text are external
behaviour, passed in as the adapterResponse value and the parsePlan
function. -/
def create_execution_plan (o : SwarmOrchestrator)
    (adapterResponse : Except FlowError CodeGenerationResult)
    (parsePlan : String → Option ExecutionPlan) : Except FlowError ExecutionPlan :=
  if o.adapters.contains o.config.default_adapter then
    match adapterResponse with
    | .error e => .error e
    | .ok response =>
        match parsePlan response.code with
        | some plan => .ok plan
        | none => .error (.InvalidResponse
            "El plan generado por la IA no es un JSON válido.")
  else
    .error (.AdapterNotFound o.config.default_adapter)

/-- Rust SwarmOrchestrator::execute_task (src/swarm/mod.rs lines
274-331): the body only calls create_execution_plan — which performs the
external adapter call — and wraps its outcome into a
SwarmExecutionResult; no complexity analysis, no model selection, no cost
verification and no performance tracking happens, and the orchestrator
state is returned unchanged. The Debug rendering of the plan is passed in
as planRepr; elapsed is the measured wall time in milliseconds. -/
def execute_task (o : SwarmOrchestrator) (task : SwarmTask)
    (adapterResponse : Except FlowError CodeGenerationResult)
    (parsePlan : String → Option ExecutionPlan)
    (planRepr : ExecutionPlan → String) (elapsed : ℕ) :
    SwarmOrchestrator × SwarmExecutionResult :=
  let task_id := task.id
  match create_execution_plan o adapterResponse parsePlan with
  | .ok plan =>
      (o,
       { task_id := task_id
         success := true
         result := some
           { code := "Plan generado:\n" ++ planRepr plan
             language := "json"
             confidence_score := 1
             attempts_made := 1
             execution_time_ms := 0
             verification_passed := true
             cost_estimate := none
             model_used := some "planner"
             metrics := CodeGenerationMetrics.default }
         thinking_result := none
         error := none
         selected_adapter := "planner"
         selected_model := .Gemini25Pro
         execution_time_ms := elapsed
         performance_score := 100
         cost_actual := 0
         cost_saved := 0
         optimization_applied := false })
  | .error e =>
      (o,
       { task_id := task_id
         success := false
         result := none
         thinking_result := none
         error := some e
         selected_adapter := "planner"
         selected_model := .Gemini25Pro
         execution_time_ms := elapsed
         performance_score := 0
         cost_actual := 0
         cost_saved := 0
         optimization_applied := false })

/-- Rust SwarmOrchestrator::verify_cost_constraints (src/swarm/mod.rs
lines 362-382): estimates tokens from the description and the code
complexity tier, prices them with the cost optimizer, then checks the
per-task requirement and the global constraints. -/
def verify_cost_constraints (o : SwarmOrchestrator) (task : SwarmTask)
    (model : ModelChoice) (complexity : TaskComplexity) : Except FlowError Unit :=
  let estimated_input_tokens := wordCount task.description
  let estimated_output_tokens : ℕ :=
    if complexity.code_complexity > 7/10 then 2000
    else if complexity.code_complexity > 4/10 then 1000
    else 500
  let cost_estimate :=
    estimate_cost o.cost_optimizer model estimated_input_tokens estimated_output_tokens
  match task.requirements.max_cost_usd with
  | some max_cost =>
      if cost_estimate.estimated_cost_usd > max_cost then
        .error (.CostLimitExceeded max_cost)
      else
        check_cost_constraints o.cost_optimizer cost_estimate.estimated_cost_usd
  | none =>
      check_cost_constraints o.cost_optimizer cost_estimate.estimated_cost_usd

/-- Rust SwarmOrchestrator::get_performance_metrics. -/
def get_performance_metrics (o : SwarmOrchestrator) (now : ℕ) : PerformanceMetrics :=
  get_current_metrics o.performance_monitor now

-- ============================================================
-- Theorems for the claims
-- ============================================================

/-- Presence-based keyword scores are normalised ratios in [0,1]. -/
theorem keywordScore_bounds (l : List String) (p : String → Bool) (hl : l ≠ []) :
    0 ≤ ((l.filter p).length : ℚ) / (l.length : ℚ) ∧
      ((l.filter p).length : ℚ) / (l.length : ℚ) ≤ 1 := by
  have hpos : 0 < (l.length : ℚ) := by
    have : 0 < l.length := List.length_pos.mpr hl
    exact_mod_cast this
  constructor
  · positivity
  · rw [div_le_one hpos]
    exact_mod_cast List.length_filter_le p l

/-- Reasoning score field of the analyzer, by unfolding. -/
theorem analyze_reasoning_eq (d : String) :
    (analyze_task_complexity d).reasoning_required =
      ((reasoning_indicators.filter (fun w => containsSub (toLowerChars d) w)).length : ℚ) /
        (reasoning_indicators.length : ℚ) := rfl

/-- Code score field of the analyzer, by unfolding. -/
theorem analyze_code_eq (d : String) :
    (analyze_task_complexity d).code_complexity =
      ((code_indicators.filter (fun w => containsSub (toLowerChars d) w)).length : ℚ) /
        (code_indicators.length : ℚ) := rfl

/-- Context score field of the analyzer, by unfolding. -/
theorem analyze_context_eq (d : String) :
    (analyze_task_complexity d).context_length = min ((wordCount d : ℚ) / 100) 1 := rfl

/-- C10: for every task description, analyze_task_complexity returns
reasoning, code and context scores in [0,1]; as a pure total Lean
function it is deterministic, idempotent and exception free by
construction; the empty description yields all-zero scores with
thinking_needed and multimodal both false. -/
theorem C10_analyze_scores_in_unit_and_empty_zero :
    (∀ description : String,
      (0 ≤ (analyze_task_complexity description).reasoning_required ∧
        (analyze_task_complexity description).reasoning_required ≤ 1) ∧
      (0 ≤ (analyze_task_complexity description).code_complexity ∧
        (analyze_task_complexity description).code_complexity ≤ 1) ∧
      (0 ≤ (analyze_task_complexity description).context_length ∧
        (analyze_task_complexity description).context_length ≤ 1)) ∧
    analyze_task_complexity "" =
      { reasoning_required := 0, code_complexity := 0, context_length := 0,
        thinking_needed := false, multimodal := false } := by
  constructor
  · intro description
    refine ⟨?_, ?_, ?_⟩
    · rw [analyze_reasoning_eq]
      exact keywordScore_bounds reasoning_indicators _ (by decide)
    · rw [analyze_code_eq]
      exact keywordScore_bounds code_indicators _ (by decide)
    · rw [analyze_context_eq]
      constructor
      · have h0 : (0 : ℚ) ≤ (wordCount description : ℚ) / 100 := by positivity
        exact le_min h0 zero_le_one
      · exact min_le_right _ _
  · have hfr : reasoning_indicators.filter (fun w => containsSub (toLowerChars "") w) = [] := by
      decide
    have hfc : code_indicators.filter (fun w => containsSub (toLowerChars "") w) = [] := by
      decide
    have hth : thinking_indicators.any (fun phrase => containsSub (toLowerChars "") phrase) = false := by
      decide
    have hmm : multimodal_indicators.any (fun w => containsSub (toLowerChars "") w) = false := by
      decide
    have hwc : wordCount "" = 0 := by decide
    simp only [analyze_task_complexity, hfr, hfc, hth, hmm, hwc, List.length_nil,
      Nat.cast_zero, Bool.false_or, TaskComplexity.mk.injEq]
    norm_num

/-- C9: for a backend with a registered profile, estimate_cost returns
exactly input_tokens over a million times the input rate plus
output_tokens over a million times the output rate — a bilinear form that
vanishes at (0, 0) — while a backend with no profile gets a zero estimate
whose model label is the string Unknown, with no panic. -/
theorem C9_estimate_cost_formula :
    (∀ (o : CostOptimizer) (model : ModelChoice) (cap : ModelCapabilities),
      o.model_capabilities model = some cap →
      (∀ input_tokens output_tokens : ℕ,
        (estimate_cost o model input_tokens output_tokens).estimated_cost_usd =
          ((input_tokens : ℚ) / 1000000) * cap.cost_per_million_input +
            ((output_tokens : ℚ) / 1000000) * cap.cost_per_million_output) ∧
      (estimate_cost o model 0 0).estimated_cost_usd = 0) ∧
    (∀ (o : CostOptimizer) (model : ModelChoice),
      o.model_capabilities model = none →
      ∀ input_tokens output_tokens : ℕ,
        estimate_cost o model input_tokens output_tokens =
          { input_tokens := input_tokens, output_tokens := output_tokens,
            estimated_cost_usd := 0, model_used := "Unknown" }) := by
  constructor
  · intro o model cap hcap
    constructor
    · intro input_tokens output_tokens
      unfold estimate_cost
      rw [hcap]
    · unfold estimate_cost
      rw [hcap]
      norm_num
  · intro o model hnone input_tokens output_tokens
    unfold estimate_cost
    rw [hnone]

/-- Witness for C9 at concrete inputs: Claude35Sonnet is registered and
priced by the formula; Gemini25Flash is unregistered and gets the zero
Unknown estimate. -/
theorem C9_estimate_cost_formula_witness :
    (estimate_cost CostOptimizer.default .Claude35Sonnet 2000000 3000000).estimated_cost_usd =
      ((2000000 : ℚ) / 1000000) * 3 + ((3000000 : ℚ) / 1000000) * 15 ∧
    estimate_cost CostOptimizer.default .Gemini25Flash 5 7 =
      { input_tokens := 5, output_tokens := 7, estimated_cost_usd := 0,
        model_used := "Unknown" } :=
  ⟨(C9_estimate_cost_formula.1 CostOptimizer.default .Claude35Sonnet _ rfl).1 2000000 3000000,
   C9_estimate_cost_formula.2 CostOptimizer.default .Gemini25Flash rfl 5 7⟩

/-- C8: check_cost_constraints yields a CostLimitExceeded error exactly
when the estimate exceeds the per-task limit (when set) or the period
spend plus the estimate exceeds the monthly budget (when set); with only
a positive per-task limit set, the boundary estimate equal to the limit
is accepted. -/
theorem C8_check_constraints_exact :
    (∀ (o : CostOptimizer) (estimated_cost : ℚ),
      (∃ e, check_cost_constraints o estimated_cost = .error e) ↔
        ((∃ max_cost, o.current_constraints.max_cost_per_task = some max_cost ∧
            estimated_cost > max_cost) ∨
         (∃ monthly_budget, o.current_constraints.monthly_budget = some monthly_budget ∧
            o.current_constraints.current_month_spent + estimated_cost > monthly_budget))) ∧
    (∀ (o : CostOptimizer) (max_cost : ℚ),
      0 < max_cost →
      o.current_constraints.max_cost_per_task = some max_cost →
      o.current_constraints.monthly_budget = none →
      check_cost_constraints o max_cost = .ok ()) := by
  constructor
  · intro o estimated_cost
    unfold check_cost_constraints
    rcases hmax : o.current_constraints.max_cost_per_task with _ | max_cost <;>
      rcases hbud : o.current_constraints.monthly_budget with _ | monthly_budget
    · simp [hmax, hbud]
    · by_cases h : o.current_constraints.current_month_spent + estimated_cost > monthly_budget <;>
        simp [hmax, hbud, h]
    · by_cases h : estimated_cost > max_cost <;> simp [hmax, hbud, h]
    · by_cases h1 : estimated_cost > max_cost
      · simp [hmax, hbud, h1]
      · by_cases h2 : o.current_constraints.current_month_spent + estimated_cost > monthly_budget <;>
          simp [hmax, hbud, h1, h2]
  · intro o max_cost hpos hmax hbud
    unfold check_cost_constraints
    simp [hmax, hbud]

/-- Scenario C constraints: per-task ceiling 0.01, no monthly budget. -/
def scenarioC_constraints : CostConstraints :=
  { max_cost_per_task := some (1/100)
    monthly_budget := none
    current_month_spent := 0
    priority_level := .Balanced }

/-- Witness for C8 at concrete inputs: with limit 0.01 an estimate of
0.05 is rejected, and the boundary estimate 0.01 is accepted. -/
theorem C8_check_constraints_exact_witness :
    (∃ e, check_cost_constraints (CostOptimizer.new scenarioC_constraints) (5/100) =
        .error e) ∧
    check_cost_constraints (CostOptimizer.new scenarioC_constraints) (1/100) = .ok () := by
  constructor
  · exact (C8_check_constraints_exact.1 _ (5/100)).mpr
      (Or.inl ⟨1/100, rfl, by norm_num⟩)
  · exact C8_check_constraints_exact.2 _ (1/100) (by norm_num) rfl rfl

/-- Usage history after one record_usage call, made explicit. -/
theorem record_usage_history (o : CostOptimizer) (r : UsageRecord) :
    (record_usage o r).usage_history =
      if (o.usage_history ++ [r]).length > 1000 then (o.usage_history ++ [r]).tail
      else o.usage_history ++ [r] := by
  simp only [record_usage]
  split_ifs <;> rfl

/-- C7: appending N usage records through record_usage retains exactly
the most recent min(N, 1000) records in append order — the history is
the drop of all but the last 1000 appended records, so after more than
1000 appends its length is exactly 1000 and the oldest records were
evicted first. -/
theorem C7_usage_history_bounded :
    ∀ (records : List UsageRecord) (constraints : CostConstraints),
      (records.foldl record_usage (CostOptimizer.new constraints)).usage_history =
        records.drop (records.length - 1000) ∧
      (records.foldl record_usage (CostOptimizer.new constraints)).usage_history.length =
        min records.length 1000 := by
  intro records constraints
  have main : ∀ l : List UsageRecord,
      (l.foldl record_usage (CostOptimizer.new constraints)).usage_history =
        l.drop (l.length - 1000) := by
    intro l
    induction l using List.reverseRecOn with
    | nil => rfl
    | append_singleton l r ih =>
      rw [List.foldl_append, List.foldl_cons, List.foldl_nil, record_usage_history, ih]
      by_cases hlen : l.length < 1000
      · have hd0 : l.length - 1000 = 0 := by omega
        have hd1 : (l ++ [r]).length - 1000 = 0 := by
          simp only [List.length_append, List.length_singleton]
          omega
        rw [hd0, hd1, List.drop_zero, List.drop_zero, if_neg]
        simp only [List.length_append, List.length_singleton, List.drop_zero,
          List.length_drop, gt_iff_lt, not_lt]
        omega
      · have hge : 1000 ≤ l.length := by omega
        have hne : l.drop (l.length - 1000) ≠ [] := by
          intro hcontra
          have := congrArg List.length hcontra
          simp only [List.length_drop, List.length_nil] at this
          omega
        rw [if_pos, List.tail_append_of_ne_nil hne, List.tail_drop]
        · have harith : l.length - 1000 + 1 = (l ++ [r]).length - 1000 := by
            simp only [List.length_append, List.length_singleton]
            omega
          rw [harith, List.drop_append_of_le_length]
          simp only [List.length_append, List.length_singleton]
          omega
        · simp only [List.length_append, List.length_singleton, List.length_drop, gt_iff_lt]
          omega
  refine ⟨main records, ?_⟩
  rw [main records, List.length_drop]
  omega

/-- Capability table of a freshly constructed optimizer is the static
default table. -/
theorem new_model_capabilities (c : CostConstraints) :
    (CostOptimizer.new c).model_capabilities = defaultModelCapabilities := rfl

/-- Critical-priority branch of the selection decision table: only the
thinking_needed flag decides the outcome. -/
theorem select_critical (o : CostOptimizer) (tc : TaskComplexity) (d : String)
    (h : o.current_constraints.priority_level = .Critical) :
    select_optimal_model o tc d =
      if tc.thinking_needed then .Claude37Sonnet else .Claude35Sonnet := by
  simp only [select_optimal_model, h, eq_self_iff_true, if_true]

/-- C4: with Critical priority, for every task complexity, description
and constraints, the selected backend has a registered profile whose
thinking_support flag equals the complexity's thinking_needed flag, and
its capability (performance) score is maximal among all registered
profiles matching that flag. -/
theorem C4_critical_selects_max_capability :
    ∀ (tc : TaskComplexity) (description : String) (constraints : CostConstraints),
      constraints.priority_level = .Critical →
      ∃ cap,
        (CostOptimizer.new constraints).model_capabilities
            (select_optimal_model (CostOptimizer.new constraints) tc description) = some cap ∧
        cap.thinking_support = tc.thinking_needed ∧
        ∀ (m : ModelChoice) (cap' : ModelCapabilities),
          (CostOptimizer.new constraints).model_capabilities m = some cap' →
          cap'.thinking_support = tc.thinking_needed →
          cap'.performance_score ≤ cap.performance_score := by
  intro tc description constraints h
  rw [select_critical _ tc description h, new_model_capabilities]
  cases htn : tc.thinking_needed
  · rw [if_neg (by decide)]
    refine ⟨_, rfl, rfl, ?_⟩
    intro m cap' hm ht
    cases m <;>
      (simp only [defaultModelCapabilities, Option.some.injEq] at hm
       first
         | exact Option.noConfusion hm
         | (subst hm
            solve
              | norm_num
              | simp at ht))
  · rw [if_pos (by decide)]
    refine ⟨_, rfl, rfl, ?_⟩
    intro m cap' hm ht
    cases m <;>
      (simp only [defaultModelCapabilities, Option.some.injEq] at hm
       first
         | exact Option.noConfusion hm
         | (subst hm
            solve
              | norm_num
              | simp at ht))

/-- Constraints with Critical priority and no cost bounds. -/
def criticalConstraints : CostConstraints :=
  { max_cost_per_task := none
    monthly_budget := none
    current_month_spent := 0
    priority_level := .Critical }

/-- A thinking-heavy complexity vector used as concrete input. -/
def criticalComplexity : TaskComplexity :=
  { reasoning_required := 9/10
    code_complexity := 2/10
    context_length := 3/10
    thinking_needed := true
    multimodal := false }

/-- Witness for C4 at a concrete Critical-priority input. -/
theorem C4_critical_selects_max_capability_witness :
    ∃ cap,
      (CostOptimizer.new criticalConstraints).model_capabilities
          (select_optimal_model (CostOptimizer.new criticalConstraints)
            criticalComplexity "prove this statement") = some cap ∧
      cap.thinking_support = criticalComplexity.thinking_needed ∧
      ∀ (m : ModelChoice) (cap' : ModelCapabilities),
        (CostOptimizer.new criticalConstraints).model_capabilities m = some cap' →
        cap'.thinking_support = criticalComplexity.thinking_needed →
        cap'.performance_score ≤ cap.performance_score :=
  C4_critical_selects_max_capability criticalComplexity "prove this statement"
    criticalConstraints rfl

/-- A mid-complexity vector: mean score 1/2, no thinking needed. -/
def midComplexity : TaskComplexity :=
  { reasoning_required := 1/2
    code_complexity := 1/2
    context_length := 1/2
    thinking_needed := false
    multimodal := false }

/-- Task-type detection on a keyword-free description. -/
theorem detect_hello_world : detect_task_type "hello world" = .SimpleQuery := by decide

/-- C5 counterexample: with Balanced priority and a mid-tier complexity,
select_optimal_model returns Gemini25Flash, a backend with no profile in
the static capability table — so not every returnable backend has a
registered profile. -/
theorem C5_counterexample_flash_unregistered :
    select_optimal_model (CostOptimizer.new defaultCostConstraints) midComplexity
        "hello world" = .Gemini25Flash ∧
    (CostOptimizer.new defaultCostConstraints).model_capabilities .Gemini25Flash = none := by
  refine ⟨?_, rfl⟩
  simp only [select_optimal_model, midComplexity, detect_hello_world,
    CostOptimizer.new, CostOptimizer.default, defaultCostConstraints]
  rw [if_neg (by decide)]
  rw [if_neg (fun hc => absurd hc.1 (by decide))]
  rw [if_neg (by decide)]
  rw [if_neg (fun hc => absurd hc.1 (by decide))]
  rw [if_pos trivial]
  rw [if_neg (by norm_num)]
  rw [if_pos (by norm_num)]

/-- Range of the selection function: only five of the six ModelChoice
values are reachable — AutoSelect is never returned. -/
theorem select_range (o : CostOptimizer) (tc : TaskComplexity) (d : String) :
    select_optimal_model o tc d = .Claude37Sonnet ∨
    select_optimal_model o tc d = .Claude35Sonnet ∨
    select_optimal_model o tc d = .Gemini2Pro ∨
    select_optimal_model o tc d = .Gemini25Pro ∨
    select_optimal_model o tc d = .Gemini25Flash := by
  simp only [select_optimal_model]
  by_cases h1 : o.current_constraints.priority_level = .Critical
  · rw [if_pos h1]
    by_cases h2 : tc.thinking_needed = true
    · rw [if_pos h2]; tauto
    · rw [if_neg h2]; tauto
  · rw [if_neg h1]
    by_cases h2 : o.current_constraints.priority_level = .Low ∧
        (tc.reasoning_required + tc.code_complexity + tc.context_length) / 3 < 3/10
    · rw [if_pos h2]; tauto
    · rw [if_neg h2]
      by_cases h3 : tc.thinking_needed = true
      · rw [if_pos h3]
        by_cases h4 : (tc.reasoning_required + tc.code_complexity + tc.context_length) / 3 > 7/10
        · rw [if_pos h4]; tauto
        · rw [if_neg h4]; tauto
      · rw [if_neg h3]
        by_cases h5 : detect_task_type d = TaskType.CodeGeneration ∧
            (tc.reasoning_required + tc.code_complexity + tc.context_length) / 3 > 6/10
        · rw [if_pos h5]; tauto
        · rw [if_neg h5]
          by_cases h6 : o.current_constraints.priority_level = .Balanced
          · rw [if_pos h6]
            by_cases h7 : (tc.reasoning_required + tc.code_complexity + tc.context_length) / 3 > 7/10
            · rw [if_pos h7]; tauto
            · rw [if_neg h7]
              by_cases h8 : (tc.reasoning_required + tc.code_complexity + tc.context_length) / 3 > 4/10
              · rw [if_pos h8]; tauto
              · rw [if_neg h8]; tauto
          · rw [if_neg h6]; tauto

/-- C5 amended: every backend select_optimal_model can return either is
Gemini25Flash — which has no registered profile — or has a profile in the
static table; and the table never changes at runtime: record_usage and
update_constraints leave it untouched. -/
theorem C5_amended_profiles_static :
    (∀ (tc : TaskComplexity) (description : String) (constraints : CostConstraints),
      select_optimal_model (CostOptimizer.new constraints) tc description =
        .Gemini25Flash ∨
      ∃ cap, (CostOptimizer.new constraints).model_capabilities
          (select_optimal_model (CostOptimizer.new constraints) tc description) =
        some cap) ∧
    (∀ (o : CostOptimizer) (r : UsageRecord),
      (record_usage o r).model_capabilities = o.model_capabilities) ∧
    (∀ (o : CostOptimizer) (c : CostConstraints),
      (update_constraints o c).model_capabilities = o.model_capabilities) := by
  refine ⟨?_, ?_, ?_⟩
  · intro tc description constraints
    rcases select_range (CostOptimizer.new constraints) tc description with
      h | h | h | h | h <;>
      rw [new_model_capabilities, h]
    · exact Or.inr ⟨_, rfl⟩
    · exact Or.inr ⟨_, rfl⟩
    · exact Or.inr ⟨_, rfl⟩
    · exact Or.inr ⟨_, rfl⟩
    · exact Or.inl rfl
  · intro o r
    simp only [record_usage]
    split_ifs <;> rfl
  · intro o c
    rfl

/-- The Scenario B task description. -/
def scenarioB : String :=
  "analyze this complex distributed consensus algorithm and explain your reasoning step by step"

/-- Full evaluation of the analyzer on the Scenario B description: four
of the seven reasoning keywords and one of the seven code keywords occur,
the 13 words give context score 13/100, the phrase step by step triggers
thinking, and no multimodal keyword occurs. -/
theorem analyze_scenarioB :
    analyze_task_complexity scenarioB =
      { reasoning_required := 4/7, code_complexity := 1/7, context_length := 13/100,
        thinking_needed := true, multimodal := false } := by
  have h1 : reasoning_indicators.filter (fun w => containsSub (toLowerChars scenarioB) w) =
      ["analyze", "explain", "reason", "complex"] := by decide
  have h2 : code_indicators.filter (fun w => containsSub (toLowerChars scenarioB) w) =
      ["algorithm"] := by decide
  have h3 : thinking_indicators.any (fun phrase => containsSub (toLowerChars scenarioB) phrase) =
      true := by decide
  have h4 : multimodal_indicators.any (fun w => containsSub (toLowerChars scenarioB) w) =
      false := by decide
  have h5 : wordCount scenarioB = 13 := by decide
  have hlr : reasoning_indicators.length = 7 := rfl
  have hlc : code_indicators.length = 7 := rfl
  simp only [analyze_task_complexity, h1, h2, h3, h4, h5, hlr, hlc, Bool.true_or,
    TaskComplexity.mk.injEq, List.length_cons, List.length_nil]
  norm_num [min_def]

/-- C6 counterexample: on the Scenario B description the analyzer does
set thinking_needed, but the overall complexity score — the mean of the
reasoning, code and context scores — is 197/700, which is not greater
than 0.7, refuting the claimed score bound. -/
theorem C6_counterexample_score_low :
    (analyze_task_complexity scenarioB).thinking_needed = true ∧
    ¬(((analyze_task_complexity scenarioB).reasoning_required +
        (analyze_task_complexity scenarioB).code_complexity +
        (analyze_task_complexity scenarioB).context_length) / 3 > 7/10) := by
  rw [analyze_scenarioB]
  exact ⟨rfl, by norm_num⟩

/-- Task-type detection on the Scenario B description: the analyze
keyword classifies it as DataAnalysis. -/
theorem detect_scenarioB : detect_task_type scenarioB = .DataAnalysis := by decide

/-- C6 amended: the Scenario B description yields thinking_needed true
with scores (4/7, 1/7, 13/100); the overall score is 197/700 — below 0.3,
not above 0.7 — and with Balanced priority select_optimal_model picks
Gemini25Pro, the mid-tier extended-reasoning backend, whose profile has
thinking support. -/
theorem C6_amended_scenarioB :
    analyze_task_complexity scenarioB =
      { reasoning_required := 4/7, code_complexity := 1/7, context_length := 13/100,
        thinking_needed := true, multimodal := false } ∧
    ((4 : ℚ)/7 + 1/7 + 13/100) / 3 = 197/700 ∧
    ((197 : ℚ)/700) < 3/10 ∧
    select_optimal_model (CostOptimizer.new defaultCostConstraints)
        (analyze_task_complexity scenarioB) scenarioB = .Gemini25Pro ∧
    ∃ cap, defaultModelCapabilities .Gemini25Pro = some cap ∧
      cap.thinking_support = true := by
  refine ⟨analyze_scenarioB, by norm_num, by norm_num, ?_, ⟨_, rfl, rfl⟩⟩
  rw [analyze_scenarioB]
  simp only [select_optimal_model, detect_scenarioB,
    CostOptimizer.new, CostOptimizer.default, defaultCostConstraints]
  rw [if_neg (by decide)]
  rw [if_neg (fun hc => absurd hc.1 (by decide))]
  rw [if_pos trivial]
  rw [if_neg (by norm_num)]

/-- start_task leaves the monitor unchanged: the TaskExecution it
constructs is dropped, never inserted into task_history. -/
theorem start_task_state (m : PerformanceMonitor) (task_id : String)
    (model : ModelChoice) (complexity_score : ℚ) (now : ℕ) :
    (start_task m task_id model complexity_score now).1 = m := rfl

/-- complete_task on a monitor with empty task history mutates nothing:
the lookup by id finds no record. -/
theorem complete_task_empty_history (m : PerformanceMonitor)
    (task_id : String) (result : Except FlowError CodeGenerationResult)
    (user_rating : Option ℚ) (now : ℕ) (h : m.task_history = []) :
    complete_task m task_id result user_rating now = m := by
  unfold complete_task
  rw [h]
  simp only [updateFirst, List.length_nil]
  rw [if_neg (by norm_num)]
  rw [← h]

/-- Every monitor operation fixes a state with empty task history. -/
theorem runMonitorOps_fixed (m : PerformanceMonitor) (h : m.task_history = [])
    (ops : List MonitorOp) : runMonitorOps m ops = m := by
  induction ops with
  | nil => rfl
  | cons op rest ih =>
    have hop : applyMonitorOp m op = m := by
      cases op with
      | start task_id model complexity_score now => rfl
      | complete task_id result user_rating now =>
        exact complete_task_empty_history m task_id result user_rating now h
    show (op :: rest).foldl applyMonitorOp m = m
    rw [List.foldl_cons, hop]
    exact ih

/-- get_current_metrics of a monitor with empty history is the
empty-window object. -/
theorem get_current_metrics_empty (m : PerformanceMonitor) (now : ℕ)
    (h : m.task_history = []) :
    get_current_metrics m now = emptyWindowMetrics := by
  unfold get_current_metrics
  rw [h]
  rfl

/-- C3: for every sequence of start_task and complete_task calls from
the default monitor state, the task_history ring buffer stays empty —
start_task drops the TaskExecution it builds, complete_task finds no
record and mutates nothing — and get_current_metrics always returns
the empty-window metrics object, whose fields are the exact rationals
0 and 1 (so no NaN or infinity can appear in any field). -/
theorem C3_task_history_always_empty :
    ∀ (ops : List MonitorOp) (session_start now : ℕ),
      (runMonitorOps (PerformanceMonitor.default session_start) ops).task_history = [] ∧
      (∀ (task_id : String) (result : Except FlowError CodeGenerationResult)
          (user_rating : Option ℚ) (t : ℕ),
        complete_task (runMonitorOps (PerformanceMonitor.default session_start) ops)
            task_id result user_rating t =
          runMonitorOps (PerformanceMonitor.default session_start) ops) ∧
      get_current_metrics (runMonitorOps (PerformanceMonitor.default session_start) ops)
          now = emptyWindowMetrics := by
  intro ops session_start now
  have hfix := runMonitorOps_fixed (PerformanceMonitor.default session_start) rfl ops
  refine ⟨by rw [hfix]; rfl, ?_, by rw [hfix]; exact get_current_metrics_empty _ now rfl⟩
  intro task_id result user_rating t
  rw [hfix]
  exact complete_task_empty_history _ task_id result user_rating t rfl

/-- A code generation result whose verification passed. -/
def genResultOk : CodeGenerationResult :=
  { code := "fn add(a: i32, b: i32) -> i32"
    language := "rust"
    confidence_score := 9/10
    attempts_made := 1
    execution_time_ms := 120
    verification_passed := true
    cost_estimate := none
    model_used := some "Gemini25Pro"
    metrics := CodeGenerationMetrics.default }

/-- A code generation result whose verification failed. -/
def genResultFail : CodeGenerationResult :=
  { genResultOk with verification_passed := false }

/-- Scenario D: ten tracked executions, the first seven completed with a
passing result and the last three with a failing one, all started and
completed within the first ten seconds of the session. -/
def scenarioD_ops : List MonitorOp :=
  [ .start "t0" .Gemini25Pro (1/2) 0, .complete "t0" (.ok genResultOk) none 100,
    .start "t1" .Gemini25Pro (1/2) 1000, .complete "t1" (.ok genResultOk) none 1100,
    .start "t2" .Gemini25Pro (1/2) 2000, .complete "t2" (.ok genResultOk) none 2100,
    .start "t3" .Gemini25Pro (1/2) 3000, .complete "t3" (.ok genResultOk) none 3100,
    .start "t4" .Gemini25Pro (1/2) 4000, .complete "t4" (.ok genResultOk) none 4100,
    .start "t5" .Gemini25Pro (1/2) 5000, .complete "t5" (.ok genResultOk) none 5100,
    .start "t6" .Gemini25Pro (1/2) 6000, .complete "t6" (.ok genResultOk) none 6100,
    .start "t7" .Gemini25Pro (1/2) 7000, .complete "t7" (.ok genResultFail) none 7100,
    .start "t8" .Gemini25Pro (1/2) 8000, .complete "t8" (.ok genResultFail) none 8100,
    .start "t9" .Gemini25Pro (1/2) 9000, .complete "t9" (.ok genResultFail) none 9100 ]

/-- C2: after the ten Scenario D executions (seven successes, three
failures, all within the trailing hour), get_current_metrics returns
success_rate 0, not the claimed 0.7 — no execution was ever recorded
because start_task drops the TaskExecution it constructs. -/
theorem C2_success_rate_zero_not_point_seven :
    (get_current_metrics (runMonitorOps (PerformanceMonitor.default 0) scenarioD_ops)
        10000).success_rate = 0 ∧
    ((0 : ℚ) ≠ 7/10) := by
  have hfix := runMonitorOps_fixed (PerformanceMonitor.default 0) rfl scenarioD_ops
  rw [hfix, get_current_metrics_empty _ 10000 rfl]
  exact ⟨rfl, by norm_num⟩

/-- Configuration of Scenario C: default swarm config with the per-task
cost ceiling lowered to 0.01. -/
def scenarioC_config : SwarmConfig :=
  { SwarmConfig.default with cost_constraints := scenarioC_constraints }

/-- Scenario C orchestrator, with the gemini adapter registered. -/
def scenarioC_orchestrator : SwarmOrchestrator :=
  { SwarmOrchestrator.new scenarioC_config "session-c" 0 with adapters := ["gemini"] }

/-- Scenario C task: a code-heavy task with no per-request cost cap, so
only the orchestrator-level constraints apply. -/
def scenarioC_task : SwarmTask :=
  { id := "task-1"
    task_type := .CodeGeneration
    description := "implement a complex algorithm"
    priority := .Medium
    requirements :=
      { preferred_language := none
        max_execution_time_ms := none
        quality_threshold := some (8/10)
        enable_verification := true
        use_neural_optimization := true
        max_cost_usd := none
        enable_thinking := false }
    created_at := 0
    thinking_mode := none }

/-- Complexity vector of the Scenario C task: code complexity 0.8 puts
the output-token estimate in the 2000 tier. -/
def scenarioC_complexity : TaskComplexity :=
  { reasoning_required := 1/2
    code_complexity := 8/10
    context_length := 1/10
    thinking_needed := false
    multimodal := false }

/-- A trivial execution plan used as the parsed adapter response. -/
def trivialPlan : ExecutionPlan :=
  { original_objective := "implement a complex algorithm", steps := [] }

/-- C1 (code bug): for the Scenario C inputs the dormant cost veto
verify_cost_constraints does reject with CostLimitExceeded(0.01) — the
estimated cost 30012/1000000 exceeds the 0.01 ceiling — but execute_task
never invokes it: it calls the external adapter and returns a successful
plan result with no error, leaving the orchestrator state (and hence the
performance monitor) untouched; on an adapter failure it returns the
adapter's own error, never the cost veto. -/
theorem C1_cost_veto_not_wired :
    verify_cost_constraints scenarioC_orchestrator scenarioC_task .Claude37Sonnet
        scenarioC_complexity = .error (.CostLimitExceeded (1/100)) ∧
    (execute_task scenarioC_orchestrator scenarioC_task (.ok genResultOk)
        (fun _ => some trivialPlan) (fun _ => "plan") 5).1 = scenarioC_orchestrator ∧
    (execute_task scenarioC_orchestrator scenarioC_task (.ok genResultOk)
        (fun _ => some trivialPlan) (fun _ => "plan") 5).2.success = true ∧
    (execute_task scenarioC_orchestrator scenarioC_task (.ok genResultOk)
        (fun _ => some trivialPlan) (fun _ => "plan") 5).2.error = none ∧
    (execute_task scenarioC_orchestrator scenarioC_task (.error (.ApiError "boom"))
        (fun _ => none) (fun _ => "plan") 5).2.error = some (.ApiError "boom") := by
  refine ⟨?_, rfl, rfl, rfl, rfl⟩
  have hwc : wordCount scenarioC_task.description = 4 := by decide
  simp only [verify_cost_constraints, scenarioC_complexity, hwc]
  rw [if_pos (show (8 : ℚ)/10 > 7/10 by norm_num)]
  simp only [estimate_cost, scenarioC_task]
  have hcap : scenarioC_orchestrator.cost_optimizer.model_capabilities = defaultModelCapabilities := rfl
  have hcon : scenarioC_orchestrator.cost_optimizer.current_constraints = scenarioC_constraints := rfl
  simp only [hcap, defaultModelCapabilities, check_cost_constraints, hcon, scenarioC_constraints]
  rw [if_pos (by norm_num)]
